import Mathlib

/-!
Verification of the BabelTalk streaming-speech service against its
natural-language specification.

The repository source provided is `quasi-peer-system/ai_service/main.py`,
the HTTP/WebSocket variant of the service (REST endpoints `/transcribe`,
`/translate`, `/summarize`, the WebSocket endpoint `/ws/transcribe`, and the
`ConnectionManager` table).  Those parts are embedded below directly from the
source.  The spec's primary subject — the streaming buffering core (Session
Buffer Table, Audio Normalizer, Inference Gate, Transcription Orchestrator) —
belongs to the repository but is not among the provided sources (the spec
describes a 476-line source; the provided file has 311 lines and contains no
buffering, normalization, or `TranscriptionResult` emission).  Definitions for
that core are therefore modelled from the spec and marked as such.

Samples are modelled as rationals (`ℚ`): the claims under check concern
buffer-length thresholds, scaling by 32768 and mean subtraction, none of which
depend on floating-point rounding.  NaN/Inf scrubbing and multi-channel
collapse (spec 4.1) have no counterpart on `ℚ` and are outside every claim.
-/

/-! ## Embedding of `ai_service/main.py` (the source in `src/`) -/

/-- Python `str.strip()` (and the spec's "trimming whitespace"): removes
leading and trailing whitespace characters, modelled on the string's
character list. -/
def pyStrip (s : String) : String :=
  ⟨((s.data.dropWhile Char.isWhitespace).reverse.dropWhile Char.isWhitespace).reverse⟩

/-- Outcome of a FastAPI request handler: a successful JSON body (abstracted)
or an `HTTPException(status_code, detail)` converted to an error response. -/
inductive HttpResult (α : Type) where
  | ok (body : α)
  | error (status : Nat) (detail : String)
deriving DecidableEq

/-- `LANGUAGE_CODES` dict from `main.py` lines 69-79. -/
def LANGUAGE_CODES : List (String × String) :=
  [("english", ("eng_Latn")), ("hindi", ("hin_Deva")), ("marathi", ("mar_Deva")),
   ("spanish", ("spa_Latn")), ("french", ("fra_Latn")), ("german", ("deu_Latn")),
   ("japanese", ("jpn_Jpan")), ("korean", ("kor_Hang")), ("chinese", ("zho_Hans"))]

/-- `dict.get(key, default)` on an association list, as used for
`LANGUAGE_CODES.get(...)` in the handlers. -/
def dictGet (d : List (String × String)) (key dflt : String) : String :=
  match d.find? (fun p => p.1 == key) with
  | some p => p.2
  | none => dflt

/-- A pydantic `BaseModel` instance, modelled as the association list of its
declared fields: attribute access resolves against exactly these names and
raises `AttributeError` for any other name. -/
def getAttr (fields : List (String × String)) (name : String) : Option String :=
  (fields.find? (fun p => p.1 == name)).map (fun p => p.2)

/-- The fields of a `TranslationRequest` instance (`main.py` lines 91-93):
exactly `text` and `target_lang`; no `src_lang` field is declared. -/
def translationRequestFields (text target_lang : String) : List (String × String) :=
  [(("text"), text), (("target_lang"), target_lang)]

/-- Detail string of the `AttributeError` raised by `request.src_lang`. -/
def srcLangAttrError : String :=
  "AttributeError: TranslationRequest object has no attribute src_lang"

namespace AiService

/-- The `/translate` handler (`main.py` lines 150-174).  The `try` body first
evaluates `request.src_lang.lower()`; attribute lookup on the request model is
embedded by `getAttr`, and a failed lookup is the raised `AttributeError`,
which the `except` clause converts to `HTTPException(500, str(e))`.  The NLLB
pipeline is the external collaborator `nllb : text → src → tgt → translation`. -/
def translate (nllb : String → String → String → String)
    (req : List (String × String)) : HttpResult String :=
  match getAttr req ("src_lang") with
  | none => HttpResult.error 500 srcLangAttrError
  | some srcName =>
    match getAttr req ("target_lang") with
    | none => HttpResult.error 500 ("AttributeError: target_lang")
    | some tgtName =>
      match getAttr req ("text") with
      | none => HttpResult.error 500 ("AttributeError: text")
      | some text =>
        let src := dictGet LANGUAGE_CODES srcName.toLower ("eng_Latn")
        let tgt := dictGet LANGUAGE_CODES tgtName.toLower ("hin_Deva")
        HttpResult.ok (nllb text src tgt)

/-- The names bound at module level in `main.py` (imports, module constants,
models, handlers).  The name `distilbart` used by `summarize` (line 180) is
bound nowhere in the file. -/
def moduleGlobals : List String :=
  [("time"), ("FastAPI"), ("HTTPException"), ("WebSocket"), ("WebSocketDisconnect"),
   ("CORSMiddleware"), ("BaseModel"), ("pipeline"), ("torch"), ("base64"), ("np"),
   ("logging"), ("os"), ("Optional"), ("List"), ("uvicorn"), ("sys"), ("signal"),
   ("logger"), ("app"), ("device"), ("whisper"), ("nllb"), ("LANGUAGE_CODES"),
   ("TranscriptionRequest"), ("TranslationRequest"), ("SummarizationRequest"),
   ("health_check"), ("transcribe"), ("translate"), ("summarize"),
   ("ConnectionManager"), ("manager"), ("websocket_transcribe"), ("signal_handler"),
   ("e"), ("__name__")]

/-- Detail string of the `NameError` raised by evaluating `distilbart(...)`. -/
def distilbartNameError : String :=
  "NameError: name distilbart is not defined"

/-- The `/summarize` handler (`main.py` lines 177-187).  The `try` body
evaluates `distilbart(request.text, ...)`: Python first resolves the name
`distilbart` among the module globals; since it is not bound, a `NameError` is
raised and converted by the `except` clause to `HTTPException(500, str(e))`.
`distilbartImpl` stands for the summarization collaborator the call would
dispatch to if the name resolved. -/
def summarize (distilbartImpl : String → String) (text : String) : HttpResult String :=
  if ("distilbart") ∈ moduleGlobals then HttpResult.ok (distilbartImpl text)
  else HttpResult.error 500 distilbartNameError

end AiService

namespace ConnectionManager

/-- `ConnectionManager.connect` (`main.py` lines 195-204): `accept` then
`self.active_connections.append(websocket)`.  Connections are modelled by
their identifiers. -/
def connect (l : List String) (ws : String) : List String :=
  l ++ [ws]

/-- `ConnectionManager.disconnect` (`main.py` lines 206-211):
`if websocket in self.active_connections: self.active_connections.remove(websocket)`.
Python `list.remove` deletes the first occurrence; guarded by membership, so
the call never raises. -/
def disconnect (l : List String) (ws : String) : List String :=
  if ws ∈ l then l.erase ws else l

end ConnectionManager

/-! ## Embedding of the `/ws/transcribe` loop (`main.py` lines 218-284) -/

/-- Result of the Whisper collaborator on the WebSocket path: transcription
text with optional confidence and language keys (the handler reads both via
`result.get`). -/
structure WhisperRes where
  text : String
  confidence : Option ℚ
  language : Option String
deriving DecidableEq

/-- A parsed `receive_json` payload.  `requestId` and `audioData` are `Option`s
because the dict may lack the key (`message["requestId"]` raises `KeyError`)
or carry audio that fails to convert (`np.array(...)` raises). -/
structure WsMessage where
  requestId : Option String
  audioData : Option (List ℚ)
  language : String
deriving DecidableEq

/-- One inbound occurrence on the WebSocket: a successfully received JSON
message, or `receive_json` raising `WebSocketDisconnect`. -/
inductive WsEvent where
  | msg (m : WsMessage)
  | disconnected
deriving DecidableEq

/-- A JSON payload sent back over the WebSocket: either the transcription
response dict of lines 250-256 or the error response dict of lines 270-274. -/
inductive WsOut where
  | result (requestId text : String) (confidence : ℚ) (language : String)
  | errorMsg (requestId errorText : String)
deriving DecidableEq

/-- Outcome of one iteration of the `while True` loop: whether the loop
continues, the value of the local variable `requestId` afterwards (it persists
across iterations — `"requestId" in locals()`), and the payloads sent. -/
structure WsStepRes where
  keepGoing : Bool
  rid : Option String
  sent : List WsOut
deriving DecidableEq

/-- The truthiness of the expression `websocket.client_state.DISCONNECTED`
(`main.py` lines 227, 249, 268).  `client_state` is a `WebSocketState` enum
member; accessing `.DISCONNECTED` through a member resolves (Python 3.11 and
earlier) to the enum member `WebSocketState.DISCONNECTED`, a plain object that
is always truthy — the expression never reflects the actual connection state.
(On Python 3.12 and later the member-of-member access raises `AttributeError`
instead; under either semantics the code guarded by a false value of this
expression is unreachable.) -/
def clientStateTruthy : Bool := true

/-- The `except Exception` branch of the loop (`main.py` lines 266-278): log;
if `not websocket.client_state.DISCONNECTED` and a `requestId` local exists,
try to send the error response; if that send itself fails, `break`; otherwise
continue.  The `clientDisconnected` parameter stands for the truthiness of the
line-268 guard expression `websocket.client_state.DISCONNECTED`; in the source
that truthiness is constantly `clientStateTruthy` (true), which makes the
error-send path unreachable — the parametric form also keeps the
counterfactual reading (the guard reflecting the real connection state)
expressible. -/
def wsExceptBranch (clientDisconnected sendOk : Bool) (rid : Option String)
    (e : String) : WsStepRes :=
  if clientDisconnected then ⟨true, rid, []⟩
  else
    match rid with
    | none => ⟨true, none, []⟩
    | some r =>
      if sendOk then ⟨true, some r, [WsOut.errorMsg r e]⟩
      else ⟨false, some r, []⟩

/-- One iteration of the `while True` loop (`main.py` lines 224-278) for one
inbound occurrence.  `clientDisconnected` stands for the truthiness of the
connection-state expression `websocket.client_state.DISCONNECTED` at lines
227 and 249; in the source that truthiness is constantly `clientStateTruthy`
(true), so the faithful instantiation is
`clientDisconnected := clientStateTruthy`, under which the line-227 check
breaks the loop before any receive.  The `false` instantiation is the
counterfactual reading the adjacent comment and log message intend (break
only when the client really disconnected).  `sendOk` models whether
`send_json` succeeds; `whisper` is the inference collaborator, raising
modelled as `Except.error`.  Per-chunk failures (`KeyError` on `requestId`,
audio conversion failure, Whisper raising, a failing result send) flow into
`wsExceptBranch`. -/
def wsStep (whisper : List ℚ → String → Except String WhisperRes)
    (clientDisconnected sendOk : Bool) (st : Option String) (ev : WsEvent) : WsStepRes :=
  if clientDisconnected then ⟨false, st, []⟩
  else
    match ev with
    | WsEvent.disconnected => ⟨false, st, []⟩
    | WsEvent.msg m =>
      match m.requestId with
      | none => wsExceptBranch clientDisconnected sendOk st ("KeyError: requestId")
      | some rid =>
        match m.audioData with
        | none =>
          wsExceptBranch clientDisconnected sendOk (some rid) ("audio conversion failed")
        | some audio =>
          match whisper audio m.language with
          | Except.error e => wsExceptBranch clientDisconnected sendOk (some rid) e
          | Except.ok r =>
            if sendOk then
              ⟨true, some rid,
               [WsOut.result rid (pyStrip r.text) (r.confidence.getD (95 / 100))
                  (r.language.getD ("en"))]⟩
            else wsExceptBranch clientDisconnected sendOk (some rid) ("send failed")

/-- The whole `while True` loop run over a list of inbound occurrences,
collecting every payload sent; stops early when an iteration breaks. -/
def wsRun (whisper : List ℚ → String → Except String WhisperRes)
    (clientDisconnected sendOk : Bool) (st : Option String) : List WsEvent → List WsOut
  | [] => []
  | e :: es =>
    let r := wsStep whisper clientDisconnected sendOk st e
    if r.keepGoing then r.sent ++ wsRun whisper clientDisconnected sendOk r.rid es
    else r.sent

/-- How the `try` body of `websocket_transcribe` came to its end: the loop ran
to completion / broke (normal or on `WebSocketDisconnect`), or an exception
escaped to the outer `except` clause after `k` processed events. -/
inductive WsTermMode where
  | loopEnded
  | outerException (k : Nat)
deriving DecidableEq

/-- The `websocket_transcribe` handler (`main.py` lines 218-284): `try`
(connect, then the receive loop) / `except` (log) / `finally`
(`manager.disconnect(websocket)`).  Whatever way the body terminates, the
`finally` clause applies `disconnect` to the connection table exactly once. -/
def websocketTranscribe (whisper : List ℚ → String → Except String WhisperRes)
    (clientDisconnected sendOk : Bool) (conns : List String) (ws : String)
    (events : List WsEvent) (mode : WsTermMode) : List String × List WsOut :=
  let afterConnect := ConnectionManager.connect conns ws
  let outs :=
    match mode with
    | WsTermMode.loopEnded => wsRun whisper clientDisconnected sendOk none events
    | WsTermMode.outerException k =>
        wsRun whisper clientDisconnected sendOk none (events.take k)
  (ConnectionManager.disconnect afterConnect ws, outs)

/-! ## Spec-modelled streaming buffering core

The Session Buffer Table, Audio Normalizer and Transcription Orchestrator
(spec sections 4.1-4.3) are repository components absent from the provided
sources; the definitions below are modelled from the spec. -/

namespace BufferCore

/-- Modelled from the spec: the drain trigger constant of the missing
buffering core — "drain trigger 32000 samples (2 seconds)" (spec section 6). -/
def triggerSize : Nat := 32000

/-- Modelled from the spec: `append(sessionId, samples)` of the missing
Session Buffer Table (spec 4.2), restricted to one session's buffer —
"appends `samples` to the end of the existing buffer, preserving order". -/
def appendChunk (buf chunk : List ℚ) : List ℚ :=
  buf ++ chunk

/-- Modelled from the spec: `drainIfReady(sessionId, triggerSize)` of the
missing Session Buffer Table (spec 4.2), restricted to one session's buffer —
"if current buffer length ≥ `triggerSize`, atomically takes the entire current
buffer content and resets the session's buffer to empty, returning the taken
content; otherwise returns nothing and leaves the buffer untouched". -/
def drainIfReady (buf : List ℚ) (trigger : Nat) : Option (List ℚ) × List ℚ :=
  if trigger ≤ buf.length then (some buf, []) else (none, buf)

/-- Arithmetic mean of a sample sequence (zero for the empty sequence). -/
def sampleMean (l : List ℚ) : ℚ :=
  l.sum / (l.length : ℚ)

/-- Largest absolute sample magnitude of a sequence (zero for the empty one). -/
def maxAbs (l : List ℚ) : ℚ :=
  l.foldr (fun x m => max |x| m) 0

/-- Modelled from the spec: the missing Audio Normalizer (spec 4.1) on mono
samples — "if the maximum absolute sample magnitude exceeds 1.0, treats the
input as 16-bit PCM and divides every sample by 32768.0" then "subtracts the
arithmetic mean of all samples".  NaN/Inf scrubbing and channel collapse have
no counterpart on `ℚ` and touch no claim. -/
def normalize (l : List ℚ) : List ℚ :=
  let scaled := if 1 < maxAbs l then l.map (fun x => x / 32768) else l
  scaled.map (fun x => x - sampleMean scaled)

/-- Session metadata carried by inbound audio events (spec section 6). -/
structure SessionIds where
  sessionId : String
  userId : String
  roomId : String
deriving DecidableEq

/-- Successful result of the inference collaborator: text plus an optional
collaborator-supplied confidence (spec 4.3 step 3c). -/
structure InferOk where
  text : String
  confidence : Option ℚ
deriving DecidableEq

/-- Outbound result event (spec section 6): `{ sessionId, userId, roomId,
text, confidence, isFinal, error }`. -/
structure TranscriptionResult where
  sessionId : String
  userId : String
  roomId : String
  text : String
  confidence : ℚ
  isFinal : Bool
  error : String
deriving DecidableEq

/-- The successful-transcription event of spec 4.3 step 3c: text, confidence
(collaborator-supplied or a default of 0.0), identifiers, `isFinal=true`,
no error. -/
def okEvent (ids : SessionIds) (r : InferOk) : TranscriptionResult :=
  ⟨ids.sessionId, ids.userId, ids.roomId, pyStrip r.text, r.confidence.getD 0, true, ("")⟩

/-- The inference-failure event of spec 4.3 step 3d: empty text, confidence
0.0, the same identifiers, `isFinal=true`, the error message populated. -/
def errEvent (ids : SessionIds) (e : String) : TranscriptionResult :=
  ⟨ids.sessionId, ids.userId, ids.roomId, (""), 0, true, e⟩

/-- What one orchestrator step did: the drained samples (if the gate fired),
the sample sequence handed to the inference collaborator (if any), the result
events emitted, and the session's buffer afterwards. -/
structure OrchStepOut where
  drained : Option (List ℚ)
  inferInput : Option (List ℚ)
  events : List TranscriptionResult
  buf : List ℚ
deriving DecidableEq

/-- Modelled from the spec: one step of the missing Transcription
Orchestrator (spec 4.3) for one inbound audio event of one session: append the
payload, call `drainIfReady` with the 32000-sample trigger; when it returns
data, normalize the drained samples, invoke the inference collaborator on
them, and emit the result event (suppressed for whitespace-only text; error
event on inference failure). -/
def orchStep (infer : List ℚ → Except String InferOk) (ids : SessionIds)
    (buf chunk : List ℚ) : OrchStepOut :=
  let b := appendChunk buf chunk
  match drainIfReady b triggerSize with
  | (some d, rest) =>
    let nd := normalize d
    match infer nd with
    | Except.ok r =>
      if pyStrip r.text = "" then ⟨some d, some nd, [], rest⟩
      else ⟨some d, some nd, [okEvent ids r], rest⟩
    | Except.error e => ⟨some d, some nd, [errEvent ids e], rest⟩
  | (none, rest) => ⟨none, none, [], rest⟩

/-- Modelled from the spec: the missing orchestrator run over a sequence of
audio events for one session, threading the session's buffer and collecting
each step's outcome (spec 4.3, events processed strictly sequentially per
session). -/
def orchRun (infer : List ℚ → Except String InferOk) (ids : SessionIds)
    (buf : List ℚ) : List (List ℚ) → List OrchStepOut × List ℚ
  | [] => ([], buf)
  | c :: cs =>
    let o := orchStep infer ids buf c
    let r := orchRun infer ids o.buf cs
    (o :: r.1, r.2)

/-- Concrete session metadata used by witnesses. -/
def wIds : SessionIds :=
  ⟨("s1"), ("u1"), ("r1")⟩

/-- A concrete inference collaborator used by witnesses: always succeeds with
whitespace-only text and no confidence. -/
def silentInfer : List ℚ → Except String InferOk :=
  fun _ => Except.ok ⟨("  "), none⟩

/-- A concrete inference collaborator used by witnesses: always succeeds with
the text `hello world` and supplies no confidence. -/
def okInfer : List ℚ → Except String InferOk :=
  fun _ => Except.ok ⟨("hello world"), none⟩

/-- A concrete inference collaborator used by witnesses: always raises. -/
def errInfer : List ℚ → Except String InferOk :=
  fun _ => Except.error ("model crashed")

end BufferCore

/-- A concrete inference collaborator used by witnesses: always succeeds with
the text `hi` and supplies no confidence or language. -/
def constWhisper : List ℚ → String → Except String WhisperRes :=
  fun _ _ => Except.ok ⟨("hi"), none, none⟩

/-! ## Theorems -/

/-- Claim C3: every well-formed translation request (fields `text` and
`target_lang`) makes the `/translate` handler fail with HTTP status 500: the
handler reads `request.src_lang`, a field the `TranslationRequest` model does
not define, so every call raises before any translation is attempted and the
exception is converted to a 500 response. -/
theorem translate_always_500 (nllb : String → String → String → String)
    (text target_lang : String) :
    AiService.translate nllb (translationRequestFields text target_lang) =
      HttpResult.error 500 srcLangAttrError := rfl

/-- Claim C4: every summarization request makes the `/summarize` handler fail
with HTTP status 500: the handler calls the name `distilbart`, which is bound
nowhere in the program, so every call raises `NameError`, caught and converted
to a 500 response; no summary is ever returned. -/
theorem summarize_always_500 (distilbartImpl : String → String) (text : String) :
    AiService.summarize distilbartImpl text =
      HttpResult.error 500 AiService.distilbartNameError := by
  unfold AiService.summarize
  rw [if_neg (by decide)]

/-- Claim C9: eviction is idempotent: under the spec's invariant that a live
session id occurs at most once in the table, evicting twice equals evicting
once (and leaves no residual entry), and evicting a never-created id is a
no-op; the operation is total, hence never fails. -/
theorem disconnect_idempotent (l : List String) (ws : String) (h : l.count ws ≤ 1) :
    ConnectionManager.disconnect (ConnectionManager.disconnect l ws) ws =
      ConnectionManager.disconnect l ws ∧
    ws ∉ ConnectionManager.disconnect l ws ∧
    (ws ∉ l → ConnectionManager.disconnect l ws = l) := by
  by_cases hm : ws ∈ l
  · have h1 : l.count ws = 1 := by
      have h2 := List.count_pos_iff.mpr hm
      omega
    have hz : (l.erase ws).count ws = 0 := by
      rw [List.count_erase_self]
      omega
    have hne : ws ∉ l.erase ws := List.count_eq_zero.mp hz
    have e1 : ConnectionManager.disconnect l ws = l.erase ws := by
      unfold ConnectionManager.disconnect
      rw [if_pos hm]
    refine ⟨?_, ?_, ?_⟩
    · rw [e1]
      unfold ConnectionManager.disconnect
      rw [if_neg hne]
    · rw [e1]
      exact hne
    · intro hn
      exact absurd hm hn
  · have e1 : ConnectionManager.disconnect l ws = l := by
      unfold ConnectionManager.disconnect
      rw [if_neg hm]
    refine ⟨?_, ?_, fun _ => e1⟩
    · rw [e1, e1]
    · rw [e1]
      exact hm

/-- Witness for C9 at a concrete table. -/
theorem disconnect_idempotent_witness :
    ([("a"), ("b")] : List String).count ("b") ≤ 1 ∧
    (ConnectionManager.disconnect (ConnectionManager.disconnect [("a"), ("b")] ("b")) ("b") =
      ConnectionManager.disconnect [("a"), ("b")] ("b") ∧
    ("b" : String) ∉ ConnectionManager.disconnect [("a"), ("b")] ("b") ∧
    (("b" : String) ∉ ([("a"), ("b")] : List String) →
      ConnectionManager.disconnect [("a"), ("b")] ("b") = [("a"), ("b")])) :=
  ⟨by decide, disconnect_idempotent [("a"), ("b")] ("b") (by decide)⟩

/-- Claim C8: for every way the WebSocket stream terminates (loop ran out or
broke, or an exception escaped to the outer handler), the `finally` clause
evicts the connection through the guaranteed-cleanup path: for a fresh
connection object the table afterwards equals the table before the
connection, so no entry for it remains. -/
theorem websocket_cleanup_evicts
    (whisper : List ℚ → String → Except String WhisperRes)
    (clientDisconnected sendOk : Bool) (conns : List String) (ws : String)
    (events : List WsEvent) (mode : WsTermMode) (h : ws ∉ conns) :
    (websocketTranscribe whisper clientDisconnected sendOk conns ws events mode).1 = conns ∧
    ws ∉ (websocketTranscribe whisper clientDisconnected sendOk conns ws events mode).1 := by
  have key : ConnectionManager.disconnect (ConnectionManager.connect conns ws) ws = conns := by
    unfold ConnectionManager.connect ConnectionManager.disconnect
    rw [if_pos (by simp), List.erase_append_right _ h, List.erase_cons_head,
      List.append_nil]
  have e1 : (websocketTranscribe whisper clientDisconnected sendOk conns ws events mode).1
      = conns := by
    simp only [websocketTranscribe]
    exact key
  refine ⟨e1, ?_⟩
  rw [e1]
  exact h

/-- Witness for C8 at a concrete connection and termination mode. -/
theorem websocket_cleanup_evicts_witness :
    (("s1" : String) ∉ ([("s0")] : List String)) ∧
    ((websocketTranscribe constWhisper false true
        [("s0")] ("s1") [] WsTermMode.loopEnded).1 = [("s0")] ∧
    ("s1" : String) ∉ (websocketTranscribe constWhisper false true
        [("s0")] ("s1") [] WsTermMode.loopEnded).1) :=
  ⟨by decide,
   websocket_cleanup_evicts constWhisper false true
     [("s0")] ("s1") [] WsTermMode.loopEnded (by decide)⟩

/-- Claim C7 (code bug): in the source the connection-state expression
`websocket.client_state.DISCONNECTED` is always truthy (`clientStateTruthy`),
so the processing loop of `websocket_transcribe` breaks at the top of its
very first iteration: no inbound event — well-formed or malformed — is ever
received or processed, and nothing is ever sent.  This contradicts the claim
(and the intent evidenced by the adjacent source comment, the log message,
and spec sections 4.3 step 4 and 7) that per-chunk errors are logged or
surfaced while the loop keeps processing subsequent events. -/
theorem connection_check_breaks_loop
    (whisper : List ℚ → String → Except String WhisperRes) (sendOk : Bool)
    (st : Option String) (ev : WsEvent) (events : List WsEvent) :
    (wsStep whisper clientStateTruthy sendOk st ev).keepGoing = false ∧
    (wsStep whisper clientStateTruthy sendOk st ev).sent = [] ∧
    wsRun whisper clientStateTruthy sendOk st (ev :: events) = [] :=
  ⟨rfl, rfl, rfl⟩

namespace BufferCore

/-- Below the trigger, `drainIfReady` returns nothing and leaves the buffer
untouched. -/
theorem drainIfReady_low (buf : List ℚ) (trigger : Nat) (h : buf.length < trigger) :
    drainIfReady buf trigger = (none, buf) := by
  unfold drainIfReady
  rw [if_neg (by omega)]

/-- At or above the trigger, `drainIfReady` takes the whole buffer and resets
it to empty. -/
theorem drainIfReady_high (buf : List ℚ) (trigger : Nat) (h : trigger ≤ buf.length) :
    drainIfReady buf trigger = (some buf, []) := by
  unfold drainIfReady
  rw [if_pos h]

/-- An orchestrator step below the trigger only appends: no drain, no
inference, no events. -/
theorem orchStep_quiet (infer : List ℚ → Except String InferOk) (ids : SessionIds)
    (buf chunk : List ℚ) (h : (buf ++ chunk).length < triggerSize) :
    orchStep infer ids buf chunk = ⟨none, none, [], buf ++ chunk⟩ := by
  simp only [orchStep, appendChunk, drainIfReady_low _ _ h]

/-- An orchestrator step at or above the trigger with a successful inference:
the whole accumulated buffer is drained and normalized, the event is emitted
unless the text strips to empty, and the buffer is reset. -/
theorem orchStep_drain_ok (infer : List ℚ → Except String InferOk) (ids : SessionIds)
    (buf chunk : List ℚ) (r : InferOk) (h : triggerSize ≤ (buf ++ chunk).length)
    (hr : infer (normalize (buf ++ chunk)) = Except.ok r) :
    orchStep infer ids buf chunk =
      ⟨some (buf ++ chunk), some (normalize (buf ++ chunk)),
       if pyStrip r.text = "" then [] else [okEvent ids r], []⟩ := by
  simp only [orchStep, appendChunk, drainIfReady_high _ _ h, hr]
  split <;> rfl

/-- An orchestrator step at or above the trigger with a failing inference:
the buffer is drained and normalized, the error event is emitted, the buffer
is reset. -/
theorem orchStep_drain_err (infer : List ℚ → Except String InferOk) (ids : SessionIds)
    (buf chunk : List ℚ) (e : String) (h : triggerSize ≤ (buf ++ chunk).length)
    (hr : infer (normalize (buf ++ chunk)) = Except.error e) :
    orchStep infer ids buf chunk =
      ⟨some (buf ++ chunk), some (normalize (buf ++ chunk)), [errEvent ids e], []⟩ := by
  simp only [orchStep, appendChunk, drainIfReady_high _ _ h, hr]

/-- Projections of an orchestrator step at or above the trigger, independent
of the inference outcome. -/
theorem orchStep_drained (infer : List ℚ → Except String InferOk) (ids : SessionIds)
    (buf chunk : List ℚ) (h : triggerSize ≤ (buf ++ chunk).length) :
    (orchStep infer ids buf chunk).drained = some (buf ++ chunk) ∧
    (orchStep infer ids buf chunk).inferInput = some (normalize (buf ++ chunk)) ∧
    (orchStep infer ids buf chunk).buf = [] := by
  cases hinf : infer (normalize (buf ++ chunk)) with
  | error e =>
    rw [orchStep_drain_err infer ids buf chunk e h hinf]
    exact ⟨rfl, rfl, rfl⟩
  | ok r =>
    rw [orchStep_drain_ok infer ids buf chunk r h hinf]
    exact ⟨rfl, rfl, rfl⟩

/-- Every sample in a sequence is bounded by its maximal absolute value. -/
theorem le_maxAbs_of_mem {x : ℚ} {l : List ℚ} (h : x ∈ l) : |x| ≤ maxAbs l := by
  induction l with
  | nil => cases h
  | cons a as ih =>
    rcases List.mem_cons.mp h with rfl | h2
    · exact le_max_left _ _
    · exact le_trans (ih h2) (le_max_right _ _)

end BufferCore

namespace BufferCore

/-- Claim C2: every sample sequence handed to the inference collaborator has
been normalized first: the orchestrator hands exactly the normalizer's output
over the drained buffer, and when the maximum absolute sample magnitude of
that input exceeds 1.0, that output is the input with every sample divided by
32768.0 and the arithmetic mean subtracted, before inference is invoked. -/
theorem normalized_before_inference (infer : List ℚ → Except String InferOk)
    (ids : SessionIds) (buf chunk : List ℚ)
    (h1 : triggerSize ≤ (buf ++ chunk).length)
    (h2 : 1 < maxAbs (buf ++ chunk)) :
    (orchStep infer ids buf chunk).inferInput = some (normalize (buf ++ chunk)) ∧
    normalize (buf ++ chunk) =
      ((buf ++ chunk).map (fun x => x / 32768)).map
        (fun x => x - sampleMean ((buf ++ chunk).map (fun x => x / 32768))) := by
  refine ⟨(orchStep_drained infer ids buf chunk h1).2.1, ?_⟩
  unfold normalize
  rw [if_pos h2]

/-- Witness for C2 at a concrete 16-bit-scaled drained buffer. -/
theorem normalized_before_inference_witness :
    triggerSize ≤ (([] : List ℚ) ++ List.replicate 32000 (2 : ℚ)).length ∧
    1 < maxAbs (([] : List ℚ) ++ List.replicate 32000 (2 : ℚ)) ∧
    ((orchStep okInfer wIds [] (List.replicate 32000 (2 : ℚ))).inferInput =
      some (normalize (([] : List ℚ) ++ List.replicate 32000 (2 : ℚ))) ∧
    normalize (([] : List ℚ) ++ List.replicate 32000 (2 : ℚ)) =
      ((([] : List ℚ) ++ List.replicate 32000 (2 : ℚ)).map (fun x => x / 32768)).map
        (fun x => x - sampleMean
          ((([] : List ℚ) ++ List.replicate 32000 (2 : ℚ)).map (fun x => x / 32768)))) := by
  have h1 : triggerSize ≤ (([] : List ℚ) ++ List.replicate 32000 (2 : ℚ)).length := by
    rw [List.nil_append, List.length_replicate]
    exact Nat.le_refl _
  have h2 : 1 < maxAbs (([] : List ℚ) ++ List.replicate 32000 (2 : ℚ)) := by
    rw [List.nil_append]
    have hm : (2 : ℚ) ∈ List.replicate 32000 (2 : ℚ) := by
      rw [List.mem_replicate]
      exact ⟨by decide, rfl⟩
    have h3 := le_maxAbs_of_mem hm
    rw [show |(2 : ℚ)| = 2 from by decide] at h3
    exact lt_of_lt_of_le (by decide) h3
  exact ⟨h1, h2, normalized_before_inference okInfer wIds [] (List.replicate 32000 (2 : ℚ)) h1 h2⟩

/-- Claim C5: a drain whose inference call succeeds but returns a string that
is empty after trimming whitespace emits no result event. -/
theorem silence_suppressed (infer : List ℚ → Except String InferOk)
    (ids : SessionIds) (buf chunk : List ℚ) (r : InferOk)
    (h1 : triggerSize ≤ (buf ++ chunk).length)
    (h2 : infer (normalize (buf ++ chunk)) = Except.ok r)
    (h3 : pyStrip r.text = "") :
    (orchStep infer ids buf chunk).events = [] := by
  rw [orchStep_drain_ok infer ids buf chunk r h1 h2]
  simp [h3]

/-- Witness for C5 at a concrete drain with whitespace-only inference text. -/
theorem silence_suppressed_witness :
    triggerSize ≤ (([] : List ℚ) ++ List.replicate 32000 (0 : ℚ)).length ∧
    silentInfer (normalize (([] : List ℚ) ++ List.replicate 32000 (0 : ℚ))) =
      Except.ok ⟨("  "), none⟩ ∧
    pyStrip (InferOk.text ⟨("  "), none⟩) = "" ∧
    (orchStep silentInfer wIds [] (List.replicate 32000 (0 : ℚ))).events = [] := by
  have h1 : triggerSize ≤ (([] : List ℚ) ++ List.replicate 32000 (0 : ℚ)).length := by
    rw [List.nil_append, List.length_replicate]
    exact Nat.le_refl _
  have h2 : silentInfer (normalize (([] : List ℚ) ++ List.replicate 32000 (0 : ℚ))) =
      Except.ok ⟨("  "), none⟩ := rfl
  have h3 : pyStrip (InferOk.text ⟨("  "), none⟩) = "" := by decide
  exact ⟨h1, h2, h3,
    silence_suppressed silentInfer wIds [] (List.replicate 32000 (0 : ℚ)) ⟨("  "), none⟩ h1 h2 h3⟩

/-- Claim C6: a drain whose inference call fails emits exactly one result
event, carrying empty text, confidence 0.0, the session's identifiers,
`isFinal = true`, and a populated (non-empty) error message. -/
theorem inference_failure_error_event (infer : List ℚ → Except String InferOk)
    (ids : SessionIds) (buf chunk : List ℚ) (e : String)
    (h1 : triggerSize ≤ (buf ++ chunk).length)
    (h2 : infer (normalize (buf ++ chunk)) = Except.error e)
    (h3 : e ≠ "") :
    (orchStep infer ids buf chunk).events = [errEvent ids e] ∧
    ∀ ev ∈ (orchStep infer ids buf chunk).events,
      ev.text = "" ∧ ev.confidence = 0 ∧ ev.sessionId = ids.sessionId ∧
      ev.userId = ids.userId ∧ ev.roomId = ids.roomId ∧ ev.isFinal = true ∧
      ev.error ≠ "" := by
  have he : (orchStep infer ids buf chunk).events = [errEvent ids e] := by
    rw [orchStep_drain_err infer ids buf chunk e h1 h2]
  refine ⟨he, ?_⟩
  intro ev hev
  rw [he] at hev
  have hev2 : ev = errEvent ids e := List.mem_singleton.mp hev
  subst hev2
  exact ⟨rfl, rfl, rfl, rfl, rfl, rfl, h3⟩

/-- Witness for C6 at a concrete drain with a raising inference collaborator. -/
theorem inference_failure_error_event_witness :
    triggerSize ≤ (([] : List ℚ) ++ List.replicate 32000 (0 : ℚ)).length ∧
    errInfer (normalize (([] : List ℚ) ++ List.replicate 32000 (0 : ℚ))) =
      Except.error ("model crashed") ∧
    ("model crashed" : String) ≠ "" ∧
    ((orchStep errInfer wIds [] (List.replicate 32000 (0 : ℚ))).events =
      [errEvent wIds ("model crashed")] ∧
    ∀ ev ∈ (orchStep errInfer wIds [] (List.replicate 32000 (0 : ℚ))).events,
      ev.text = "" ∧ ev.confidence = 0 ∧ ev.sessionId = wIds.sessionId ∧
      ev.userId = wIds.userId ∧ ev.roomId = wIds.roomId ∧ ev.isFinal = true ∧
      ev.error ≠ "") := by
  have h1 : triggerSize ≤ (([] : List ℚ) ++ List.replicate 32000 (0 : ℚ)).length := by
    rw [List.nil_append, List.length_replicate]
    exact Nat.le_refl _
  have h2 : errInfer (normalize (([] : List ℚ) ++ List.replicate 32000 (0 : ℚ))) =
      Except.error ("model crashed") := rfl
  have h3 : ("model crashed" : String) ≠ "" := by decide
  exact ⟨h1, h2, h3,
    inference_failure_error_event errInfer wIds [] (List.replicate 32000 (0 : ℚ))
      ("model crashed") h1 h2 h3⟩

/-- Claim C10: a successful inference whose collaborator result supplies no
confidence value leads to a result event carrying confidence 0.0 as the
default. -/
theorem default_confidence_zero (infer : List ℚ → Except String InferOk)
    (ids : SessionIds) (buf chunk : List ℚ) (r : InferOk)
    (h1 : triggerSize ≤ (buf ++ chunk).length)
    (h2 : infer (normalize (buf ++ chunk)) = Except.ok r)
    (h3 : r.confidence = none)
    (h4 : pyStrip r.text ≠ "") :
    (orchStep infer ids buf chunk).events = [okEvent ids r] ∧
    (okEvent ids r).confidence = 0 := by
  constructor
  · rw [orchStep_drain_ok infer ids buf chunk r h1 h2]
    simp [h4]
  · simp [okEvent, h3]

/-- Witness for C10 at a concrete drain whose collaborator supplies no
confidence. -/
theorem default_confidence_zero_witness :
    triggerSize ≤ (([] : List ℚ) ++ List.replicate 32000 (0 : ℚ)).length ∧
    okInfer (normalize (([] : List ℚ) ++ List.replicate 32000 (0 : ℚ))) =
      Except.ok ⟨("hello world"), none⟩ ∧
    (InferOk.confidence ⟨("hello world"), none⟩) = none ∧
    pyStrip (InferOk.text ⟨("hello world"), none⟩) ≠ "" ∧
    ((orchStep okInfer wIds [] (List.replicate 32000 (0 : ℚ))).events =
      [okEvent wIds ⟨("hello world"), none⟩] ∧
    (okEvent wIds ⟨("hello world"), none⟩).confidence = 0) := by
  have h1 : triggerSize ≤ (([] : List ℚ) ++ List.replicate 32000 (0 : ℚ)).length := by
    rw [List.nil_append, List.length_replicate]
    exact Nat.le_refl _
  have h2 : okInfer (normalize (([] : List ℚ) ++ List.replicate 32000 (0 : ℚ))) =
      Except.ok ⟨("hello world"), none⟩ := rfl
  have h3 : (InferOk.confidence ⟨("hello world"), none⟩) = none := rfl
  have h4 : pyStrip (InferOk.text ⟨("hello world"), none⟩) ≠ "" := by decide
  exact ⟨h1, h2, h3, h4,
    default_confidence_zero okInfer wIds [] (List.replicate 32000 (0 : ℚ))
      ⟨("hello world"), none⟩ h1 h2 h3 h4⟩

end BufferCore

namespace BufferCore

/-- An orchestrator run produces one step record per inbound event. -/
theorem orchRun_length (infer : List ℚ → Except String InferOk) (ids : SessionIds)
    (cs : List (List ℚ)) (buf : List ℚ) :
    (orchRun infer ids buf cs).1.length = cs.length := by
  induction cs generalizing buf with
  | nil => rfl
  | cons c cs ih => simp only [orchRun, List.length_cons, ih]

/-- A run all of whose cumulative lengths stay below the trigger drains
nothing, calls no inference, emits nothing, and accumulates every chunk. -/
theorem orchRun_quiet (infer : List ℚ → Except String InferOk) (ids : SessionIds)
    (cs : List (List ℚ)) (buf : List ℚ)
    (h : ∀ k, k ≤ cs.length → (buf ++ (cs.take k).flatten).length < triggerSize) :
    (∀ o ∈ (orchRun infer ids buf cs).1,
       o.drained = none ∧ o.inferInput = none ∧ o.events = []) ∧
    (orchRun infer ids buf cs).2 = buf ++ cs.flatten := by
  induction cs generalizing buf with
  | nil =>
    refine ⟨?_, ?_⟩
    · intro o ho
      simp [orchRun] at ho
    · simp [orchRun]
  | cons c cs ih =>
    have h2 : ∀ k, k ≤ cs.length →
        ((buf ++ c) ++ (cs.take k).flatten).length < triggerSize := by
      intro k hk
      have h3 := h (k + 1) (by rw [List.length_cons]; omega)
      simpa [List.take_succ_cons, List.flatten_cons, List.append_assoc] using h3
    have hc : (buf ++ c).length < triggerSize := by
      have h4 := h2 0 (Nat.zero_le _)
      simpa using h4
    have hstep : orchStep infer ids buf c = ⟨none, none, [], buf ++ c⟩ :=
      orchStep_quiet infer ids buf c hc
    obtain ⟨ihm, ihb⟩ := ih (buf ++ c) h2
    refine ⟨?_, ?_⟩
    · intro o ho
      simp only [orchRun, hstep] at ho
      rcases List.mem_cons.mp ho with h4 | h4
      · subst h4
        exact ⟨rfl, rfl, rfl⟩
      · exact ihm o h4
    · simp only [orchRun, hstep]
      rw [ihb, List.flatten_cons, List.append_assoc]

/-- An orchestrator run splits along a split of its event list. -/
theorem orchRun_append (infer : List ℚ → Except String InferOk) (ids : SessionIds)
    (l1 l2 : List (List ℚ)) (buf : List ℚ) :
    orchRun infer ids buf (l1 ++ l2) =
      ((orchRun infer ids buf l1).1 ++
        (orchRun infer ids (orchRun infer ids buf l1).2 l2).1,
       (orchRun infer ids (orchRun infer ids buf l1).2 l2).2) := by
  induction l1 generalizing buf with
  | nil => simp [orchRun]
  | cons c cs ih => simp [orchRun, ih, List.cons_append]

/-- Claim C1: for a sequence of audio events on one session whose cumulative
sample count first reaches the 32000-sample trigger at the Nth event, no
event before the Nth drains the buffer or dispatches anything to inference;
the Nth event drains exactly the whole cumulative accumulated data (so the
drained length equals the cumulative length at that point), hands its
normalization to inference, and leaves the buffer empty immediately after. -/
theorem buffering_threshold (infer : List ℚ → Except String InferOk) (ids : SessionIds)
    (chunks : List (List ℚ)) (N : Nat) (hN : N < chunks.length)
    (hreach : triggerSize ≤ ((chunks.take (N + 1)).flatten).length)
    (hbefore : ∀ k, k ≤ N → ((chunks.take k).flatten).length < triggerSize) :
    (∀ k, k < N → ∃ o, (orchRun infer ids [] chunks).1[k]? = some o ∧
       o.drained = none ∧ o.inferInput = none ∧ o.events = []) ∧
    (∃ o, (orchRun infer ids [] chunks).1[N]? = some o ∧
       o.drained = some ((chunks.take (N + 1)).flatten) ∧
       o.inferInput = some (normalize ((chunks.take (N + 1)).flatten)) ∧
       o.buf = []) := by
  have hquiet : ∀ k, k ≤ (chunks.take N).length →
      (([] : List ℚ) ++ ((chunks.take N).take k).flatten).length < triggerSize := by
    intro k hk
    have hkN : k ≤ N :=
      le_trans hk (by rw [List.length_take]; exact min_le_left _ _)
    rw [List.nil_append, List.take_take, min_eq_left hkN]
    exact hbefore k hkN
  obtain ⟨hA_mem, hA_buf⟩ := orchRun_quiet infer ids (chunks.take N) [] hquiet
  rw [List.nil_append] at hA_buf
  have hAlen : (orchRun infer ids [] (chunks.take N)).1.length = N := by
    rw [orchRun_length, List.length_take]
    exact min_eq_left (le_of_lt hN)
  have hdec : chunks.take N ++ chunks.drop N = chunks := List.take_append_drop N chunks
  have hsplit := orchRun_append infer ids (chunks.take N) (chunks.drop N) ([] : List ℚ)
  rw [hdec] at hsplit
  have hdrop : chunks.drop N = chunks[N] :: chunks.drop (N + 1) :=
    List.drop_eq_getElem_cons hN
  have hflat : (chunks.take (N + 1)).flatten = (chunks.take N).flatten ++ chunks[N] := by
    rw [List.take_succ]
    rw [List.getElem?_eq_getElem hN]
    rw [List.flatten_append]
    rw [Option.toList_some]
    rw [List.flatten_cons, List.flatten_nil, List.append_nil]
  have hlen2 : triggerSize ≤ ((chunks.take N).flatten ++ chunks[N]).length := by
    rw [← hflat]
    exact hreach
  obtain ⟨hd, hi, hb⟩ :=
    orchStep_drained infer ids ((chunks.take N).flatten) (chunks[N]) hlen2
  constructor
  · intro k hk
    have hklt : k < (orchRun infer ids [] (chunks.take N)).1.length := by
      rw [hAlen]
      exact hk
    have hidx : (orchRun infer ids [] chunks).1[k]? =
        (orchRun infer ids [] (chunks.take N)).1[k]? := by
      rw [hsplit]
      exact List.getElem?_append_left hklt
    obtain ⟨e1, e2, e3⟩ := hA_mem _ (List.getElem_mem hklt)
    refine ⟨(orchRun infer ids [] (chunks.take N)).1[k], ?_, e1, e2, e3⟩
    rw [hidx]
    exact List.getElem?_eq_getElem hklt
  · have hge : (orchRun infer ids [] (chunks.take N)).1.length ≤ N := le_of_eq hAlen
    have h2 : (orchRun infer ids [] chunks).1[N]? =
        (orchRun infer ids (orchRun infer ids [] (chunks.take N)).2
          (chunks.drop N)).1[N - (orchRun infer ids [] (chunks.take N)).1.length]? := by
      rw [hsplit]
      exact List.getElem?_append_right hge
    rw [hAlen, Nat.sub_self, hA_buf, hdrop] at h2
    have h3 : (orchRun infer ids ((chunks.take N).flatten)
        (chunks[N] :: chunks.drop (N + 1))).1[0]? =
        some (orchStep infer ids ((chunks.take N).flatten) (chunks[N])) := by
      simp [orchRun]
    refine ⟨orchStep infer ids ((chunks.take N).flatten) (chunks[N]), ?_, ?_, ?_, hb⟩
    · rw [h2, h3]
    · rw [hd, hflat]
    · rw [hi, hflat]

/-- Witness for C1: a single chunk of exactly 32000 samples reaches the
trigger at the first event. -/
theorem buffering_threshold_witness :
    0 < ([List.replicate 32000 (0 : ℚ)] : List (List ℚ)).length ∧
    triggerSize ≤ ((([List.replicate 32000 (0 : ℚ)] : List (List ℚ)).take (0 + 1)).flatten).length ∧
    (∀ k, k ≤ 0 → ((([List.replicate 32000 (0 : ℚ)] : List (List ℚ)).take k).flatten).length <
       triggerSize) ∧
    ((∀ k, k < 0 → ∃ o,
        (orchRun okInfer wIds [] [List.replicate 32000 (0 : ℚ)]).1[k]? = some o ∧
        o.drained = none ∧ o.inferInput = none ∧ o.events = []) ∧
     (∃ o, (orchRun okInfer wIds [] [List.replicate 32000 (0 : ℚ)]).1[0]? = some o ∧
        o.drained = some ((([List.replicate 32000 (0 : ℚ)] : List (List ℚ)).take (0 + 1)).flatten) ∧
        o.inferInput =
          some (normalize ((([List.replicate 32000 (0 : ℚ)] : List (List ℚ)).take (0 + 1)).flatten)) ∧
        o.buf = [])) := by
  have hN : 0 < ([List.replicate 32000 (0 : ℚ)] : List (List ℚ)).length := Nat.zero_lt_one
  have hflat1 : ((([List.replicate 32000 (0 : ℚ)] : List (List ℚ)).take (0 + 1)).flatten) =
      List.replicate 32000 (0 : ℚ) := by
    rw [List.take_succ_cons, List.take_nil, List.flatten_cons, List.flatten_nil,
      List.append_nil]
  have hreach : triggerSize ≤
      ((([List.replicate 32000 (0 : ℚ)] : List (List ℚ)).take (0 + 1)).flatten).length := by
    rw [hflat1, List.length_replicate]
    exact Nat.le_refl _
  have hbefore : ∀ k, k ≤ 0 →
      ((([List.replicate 32000 (0 : ℚ)] : List (List ℚ)).take k).flatten).length <
        triggerSize := by
    intro k hk
    have hk0 : k = 0 := Nat.le_zero.mp hk
    subst hk0
    rw [List.take_zero, List.flatten_nil, List.length_nil]
    decide
  exact ⟨hN, hreach, hbefore,
    buffering_threshold okInfer wIds [List.replicate 32000 (0 : ℚ)] 0 hN hreach hbefore⟩

end BufferCore
